import Mathlib

/-!
Verification development for the log-capturer core: a shallow embedding of
the settings resolver (`src/settings_manager.py`), the event extractor and
capture manager (`src/log_capturer.py`), the webhook delivery subsystem
(`src/webhook_manager.py`), and the device monitor (`src/device_manager.py`),
together with theorems settling the behavioural claims about them.
-/

namespace LogCap

/-! ## String utilities (Python `str.strip`) -/

/-- Whitespace characters removed by Python `str.strip()`. -/
def isPyWs (c : Char) : Bool :=
  c == ' ' || c == '\t' || c == '\n' || c == '\r' || c == '\x0b' || c == '\x0c'

/-- Strip leading and trailing whitespace from a character list. -/
def stripL (l : List Char) : List Char :=
  ((l.dropWhile isPyWs).reverse.dropWhile isPyWs).reverse

/-- Embedding of Python `str.strip()` (no arguments): remove surrounding
whitespace. -/
def pyStrip (s : String) : String :=
  String.mk (stripL s.data)

/-! ## Settings resolver (`src/settings_manager.py`)

A Python dict persisted as a JSON document is modelled as a partial map from
keys to values; all values appearing in the claims are strings. -/

/-- A settings document: partial map from key to string value, the model of
the Python dicts handled by the settings managers. -/
abbrev Doc := String → Option String

/-- Embedding of Python `dict.get(k, dflt)`. -/
def dGetD (d : Doc) (k dflt : String) : String :=
  (d k).getD dflt

/-- The hardcoded `_default_settings` of `JSONSettingsManager` and
`EnvironmentSettingsManager`: endpoint empty, mode `"raw"`. -/
def default_settings : Doc := fun k =>
  if k = "endpoint" then some ""
  else if k = "mode" then some "raw"
  else none

/-- Embedding of `merged = base.copy(); merged.update(upd)`: every key of
`upd` overrides, remaining keys come from `base`. -/
def dictUpdate (base upd : Doc) : Doc := fun k =>
  match upd k with
  | some v => some v
  | none => base k

/-- Embedding of the merge loop in `CompositeSettingsManager.load_settings`:
`final = base.copy()`, then every key of `upd` whose value is truthy
(non-empty string) overrides. An empty value in `upd` neither overrides nor
introduces its key. -/
def dictUpdateTruthy (base upd : Doc) : Doc := fun k =>
  match upd k with
  | some v => if v = "" then base k else some v
  | none => base k

/-- Embedding of `JSONSettingsManager.load_settings`: the file state is
`some doc` when the settings file exists and parses, `none` when it is
absent or unreadable. A present document is merged over the defaults
(`merged_settings = self._default_settings.copy(); merged_settings.update(settings)`);
otherwise the defaults are returned. -/
def json_load_settings (file : Option Doc) : Doc :=
  match file with
  | some s => dictUpdate default_settings s
  | none => default_settings

/-- The `valid_modes` list of `JSONSettingsManager._validate_settings`.
The repository calls the structured channel `"json"`; the specification
names the same mode `"structured"`. -/
def valid_modes : List String := ["raw", "json", "both"]

/-- Embedding of `JSONSettingsManager._validate_settings`: keep exactly the
`endpoint` key (stripped) and the `mode` key (coerced to `"raw"` unless it is
one of `valid_modes`); every other key of the input is dropped. -/
def validate_settings (s : Doc) : Doc := fun k =>
  if k = "endpoint" then some (pyStrip (dGetD s "endpoint" ""))
  else if k = "mode" then
    some (if dGetD s "mode" "raw" ∈ valid_modes then dGetD s "mode" "raw" else "raw")
  else none

/-- Embedding of the success path of `JSONSettingsManager.save_settings`:
the validated document becomes the new file state. -/
def json_save_settings (s : Doc) : Option Doc :=
  some (validate_settings s)

/-- Embedding of `EnvironmentSettingsManager.load_settings`: the process
environment is a partial map from variable name to value; the keys
`endpoint` and `mode` are read from `WEBHOOK_ENDPOINT` and `SEND_MODE`,
falling back to the defaults when the variable is unset. -/
def env_load_settings (env : String → Option String) : Doc := fun k =>
  if k = "endpoint" then some ((env "WEBHOOK_ENDPOINT").getD "")
  else if k = "mode" then some ((env "SEND_MODE").getD "raw")
  else none

/-- Embedding of `CompositeSettingsManager.load_settings`: start from the
environment settings and let every non-empty value of the JSON settings
override. -/
def composite_load_settings (env : String → Option String) (file : Option Doc) : Doc :=
  dictUpdateTruthy (env_load_settings env) (json_load_settings file)

/-! ## Concrete environments and documents used as test inputs -/

/-- An environment with no relevant variables set. -/
def envEmpty : String → Option String := fun _ => none

/-- An environment that sets only `SEND_MODE=both`. -/
def envModeBoth : String → Option String := fun k =>
  if k = "SEND_MODE" then some "both" else none

/-- An environment that sets `WEBHOOK_ENDPOINT=http://e` and `SEND_MODE=both`. -/
def envFull : String → Option String := fun k =>
  if k = "WEBHOOK_ENDPOINT" then some "http://e"
  else if k = "SEND_MODE" then some "both" else none

/-- A persisted document with a non-empty endpoint and an explicitly empty
mode field. -/
def docEmptyMode : Doc := fun k =>
  if k = "endpoint" then some "http://p"
  else if k = "mode" then some "" else none

/-- A settings document whose fields are all non-empty and non-default and
which carries a key beyond `endpoint` and `mode`. -/
def docExtraKey : Doc := fun k =>
  if k = "endpoint" then some "http://x"
  else if k = "mode" then some "both"
  else if k = "extra" then some "y" else none

/-- A settings document with exactly the `endpoint` and `mode` keys, both
non-empty and non-default. -/
def docRound : Doc := fun k =>
  if k = "endpoint" then some "http://x"
  else if k = "mode" then some "both" else none

/-! ## Claim C1: the layered settings merge rule -/

/-- Claim C1, counterexample: with `SEND_MODE=both` in the environment and an
absent persisted document, `load()` returns mode `"raw"`, not the
environment value `"both"` — the defaults injected by
`JSONSettingsManager.load_settings` contain the non-empty mode `"raw"`,
which the composite merge treats as a persisted non-empty value. -/
theorem settings_merge_mode_counterexample :
    envModeBoth "SEND_MODE" = some "both" ∧
    composite_load_settings envModeBoth none "mode" = some "raw" ∧
    some "raw" ≠ (some "both" : Option String) := by
  decide

/-- Claim C1 (amended): a persisted non-empty value always wins, for every
key; the environment wins over an empty persisted endpoint (whose default is
empty); but with an absent persisted document the mode resolves to the
default `"raw"` regardless of the environment, and the environment mode
shows through only when the persisted document carries an explicitly empty
mode field. -/
theorem settings_merge (env : String → Option String) (file : Option Doc) :
    (∀ k P, P ≠ "" → json_load_settings file k = some P →
      composite_load_settings env file k = some P) ∧
    (∀ E, env "WEBHOOK_ENDPOINT" = some E →
      json_load_settings file "endpoint" = some "" →
      composite_load_settings env file "endpoint" = some E) ∧
    composite_load_settings env none "mode" = some "raw" ∧
    (∀ d, file = some d → d "mode" = some "" →
      composite_load_settings env file "mode" = some ((env "SEND_MODE").getD "raw")) := by
  refine ⟨?_, ?_, ?_, ?_⟩
  · intro k P hP h
    simp only [composite_load_settings, dictUpdateTruthy]
    rw [h]
    simp [hP]
  · intro E hE h
    simp only [composite_load_settings, dictUpdateTruthy]
    rw [h]
    simp [env_load_settings, hE]
  · simp [composite_load_settings, dictUpdateTruthy, json_load_settings,
      default_settings]
  · intro d hd hm
    subst hd
    simp only [composite_load_settings, dictUpdateTruthy, json_load_settings,
      dictUpdate]
    rw [hm]
    simp [env_load_settings]

/-- Witness for `settings_merge`: with both environment variables set and a
persisted document whose endpoint is `"http://p"` and whose mode field is
explicitly empty, `load()` yields the persisted endpoint and the
environment mode. -/
theorem settings_merge_witness :
    composite_load_settings envFull (some docEmptyMode) "endpoint" = some "http://p" ∧
    composite_load_settings envFull (some docEmptyMode) "mode" = some "both" := by
  have h := settings_merge envFull (some docEmptyMode)
  refine ⟨h.1 "endpoint" "http://p" (by decide) (by decide), ?_⟩
  have h4 := h.2.2.2 docEmptyMode rfl (by decide)
  rw [(by decide : (envFull "SEND_MODE").getD "raw" = "both")] at h4
  exact h4

/-! ## Claim C7: the settings round-trip -/

/-- Claim C7, counterexample: a settings document whose fields are all
non-empty and non-default but which carries a key `extra` beyond `endpoint`
and `mode` does not round-trip: `_validate_settings` drops the extra key on
save, so `load()` after `save()` no longer contains it. -/
theorem settings_roundtrip_counterexample :
    docExtraKey "endpoint" = some "http://x" ∧
    docExtraKey "mode" = some "both" ∧
    docExtraKey "extra" = some "y" ∧
    composite_load_settings envEmpty (json_save_settings docExtraKey) "extra" = none := by
  decide

/-- Claim C7 (amended): `save(S); load()` returns `S` on the `endpoint` and
`mode` fields whenever the endpoint is non-empty and already
whitespace-trimmed and the mode is a valid non-default mode (`"json"` or
`"both"`); every key beyond `endpoint` and `mode` is dropped by save-side
validation, so the round-trip fails for any future keys. -/
theorem settings_roundtrip (env : String → Option String) (S : Doc) (e m : String)
    (he : S "endpoint" = some e) (hes : pyStrip e = e) (hne : e ≠ "")
    (hm : S "mode" = some m) (hvm : m = "json" ∨ m = "both") :
    composite_load_settings env (json_save_settings S) "endpoint" = some e ∧
    composite_load_settings env (json_save_settings S) "mode" = some m ∧
    ∀ k, k ≠ "endpoint" → k ≠ "mode" →
      composite_load_settings env (json_save_settings S) k = none := by
  have hmv : m ∈ valid_modes := by
    rcases hvm with rfl | rfl <;> decide
  have hmne : m ≠ "" := by
    rcases hvm with rfl | rfl <;> decide
  have hve : validate_settings S "endpoint" = some e := by
    simp [validate_settings, dGetD, he, hes]
  have hvm2 : validate_settings S "mode" = some m := by
    simp [validate_settings, dGetD, hm, hmv]
  refine ⟨?_, ?_, ?_⟩
  · simp only [composite_load_settings, dictUpdateTruthy, json_load_settings,
      json_save_settings, dictUpdate]
    rw [hve]
    simp [hne]
  · simp only [composite_load_settings, dictUpdateTruthy, json_load_settings,
      json_save_settings, dictUpdate]
    rw [hvm2]
    simp [hmne]
  · intro k hk1 hk2
    simp [composite_load_settings, dictUpdateTruthy, json_load_settings,
      json_save_settings, dictUpdate, validate_settings, default_settings,
      env_load_settings, hk1, hk2]

/-- Witness for `settings_roundtrip`: the document
`{endpoint: "http://x", mode: "both"}` survives `save` followed by `load`,
and an unrelated key stays absent. -/
theorem settings_roundtrip_witness :
    composite_load_settings envEmpty (json_save_settings docRound) "endpoint" = some "http://x" ∧
    composite_load_settings envEmpty (json_save_settings docRound) "mode" = some "both" ∧
    composite_load_settings envEmpty (json_save_settings docRound) "other" = none := by
  have h := settings_roundtrip envEmpty docRound "http://x" "both"
    (by decide) (by decide) (by decide) (by decide) (Or.inr rfl)
  exact ⟨h.1, h.2.1, h.2.2 "other" (by decide) (by decide)⟩

/-! ## JSON values

The Python side parses payloads with the `json` library. Its value universe
is modelled by `JVal`; array and object contents are abstracted to their
sizes, which is all the embedded code ever inspects (truthiness). -/

/-- A parsed JSON value. Arrays and objects are abstracted to the number of
their elements/keys: the embedded code only ever tests their truthiness and
passes them along unchanged. -/
inductive JVal where
  | null : JVal
  | bool (b : Bool) : JVal
  | num (n : Int) : JVal
  | str (s : String) : JVal
  | arr (size : Nat) : JVal
  | obj (size : Nat) : JVal
deriving DecidableEq, Repr

/-- Python truthiness of a JSON value: `None`, `False`, `0`, `""`, `[]` and
`{}` are falsy. -/
def JVal.truthy : JVal → Bool
  | .null => false
  | .bool b => b
  | .num n => n != 0
  | .str s => s != ""
  | .arr n => n != 0
  | .obj n => n != 0

/-- Python truthiness of an optional JSON value (`None` is falsy). -/
def optTruthy : Option JVal → Bool
  | none => false
  | some v => v.truthy

/-- A stand-in for the `json.loads` library call, agreeing with it on the
literals `null`, `true`, `false` and unsigned decimal integers, and failing
on everything else. Used to instantiate theorems at concrete payloads. -/
def jsonLoadsLite (s : String) : Option JVal :=
  if s = "null" then some .null
  else if s = "true" then some (.bool true)
  else if s = "false" then some (.bool false)
  else if s.data ≠ [] ∧ s.data.all Char.isDigit then
    some (.num (s.data.foldl (fun a c => 10 * a + (c.toNat - 48)) 0))
  else none

/-! ## Webhook delivery (`src/webhook_manager.py`) -/

/-- The outcome of one network attempt made by
`HTTPWebhookSender._send_request`: either an HTTP response (status code and
reason), or one of the exception classes the code catches. -/
inductive Attempt where
  | resp (status : Nat) (reason : String) : Attempt
  | connErr (msg : String) : Attempt
  | timeoutErr (msg : String) : Attempt
  | otherErr (msg : String) : Attempt
deriving DecidableEq, Repr

/-- Whether an attempt counts as a success: a response whose status code is
below 400 (`if response.status_code < 400`). -/
def attemptOk : Attempt → Bool
  | .resp s _ => s < 400
  | _ => false

/-- The status code carried by a successful attempt. -/
def attemptStatus : Attempt → Option Nat
  | .resp s _ => some s
  | _ => none

/-- The `last_error` string recorded for a failed attempt, mirroring the
messages built in `_send_request`. -/
def attemptErr : Attempt → String
  | .resp s reason => "HTTP " ++ toString s ++ ": " ++ reason
  | .connErr m => "Connection error: " ++ m
  | .timeoutErr m => "Timeout error: " ++ m
  | .otherErr m => "Unexpected error: " ++ m

/-- The result of `_send_request`: the returned `(success, status_code,
error)` triple, together with the number of attempts actually made and the
backoff waits (in seconds) slept between attempts. -/
structure SendRes where
  success : Bool
  status : Option Nat
  lastError : Option String
  attempts : Nat
  waits : List Nat
deriving DecidableEq, Repr

/-- Embedding of the retry loop of `HTTPWebhookSender._send_request`.
`attempt` is the current loop index, the second argument is the number of
attempts remaining, and the third is the `last_error` accumulator. A
successful attempt (status below 400) returns immediately; a failed attempt
records its error and, unless it was the last, sleeps `2 ** attempt`
seconds before retrying. -/
def sendLoop (resp : Nat → Attempt) : Nat → Nat → Option String → SendRes
  | _, 0, lastErr => ⟨false, none, lastErr, 0, []⟩
  | attempt, rem + 1, _ =>
    let a := resp attempt
    if attemptOk a then ⟨true, attemptStatus a, none, 1, []⟩
    else
      let le := some (attemptErr a)
      if rem = 0 then ⟨false, none, le, 1, []⟩
      else
        let r := sendLoop resp (attempt + 1) rem le
        ⟨r.success, r.status, r.lastError, r.attempts + 1, 2 ^ attempt :: r.waits⟩

/-- Embedding of `HTTPWebhookSender._send_request` with `retry` configured
attempts: run the loop from attempt 0 with `last_error = None`. -/
def send_request (resp : Nat → Attempt) (retry : Nat) : SendRes :=
  sendLoop resp 0 retry none

/-- The default `retry_count` of `HTTPWebhookSender.__init__`. -/
def retry_count_default : Nat := 3

/-- The mutable configuration of `WebhookManager`: `_endpoint` (initially
`None`) and `_mode` (initially `"raw"`). -/
structure WMState where
  endpoint : Option String
  mode : String
deriving DecidableEq, Repr

/-- The state of a freshly constructed `WebhookManager`. -/
def wm_init : WMState := ⟨none, "raw"⟩

/-- Embedding of `WebhookManager.configure`: the endpoint is stripped and
stored; the mode is stored verbatim, with no validation. -/
def wm_configure (_w : WMState) (endpoint mode : String) : WMState :=
  ⟨some (pyStrip endpoint), mode⟩

/-- The per-event log record consumed by `send_log_data`, as produced by
`AndroidLogProcessor.process_line`. -/
structure LogData where
  timestamp : String
  event_type : String
  matched_text : String
  original_line : String
  parsed_json : Option JVal
deriving DecidableEq, Repr

/-- Python truthiness of the stored `_endpoint`: `None` and the empty
string are falsy. -/
def endpointTruthy : Option String → Bool
  | none => false
  | some s => s != ""

/-- One per-channel delivery outcome tuple
`(channel, success, status_code, error)` as appended to `results` in
`WebhookManager.send_log_data`. -/
abbrev Outcome := String × Bool × Option Nat × Option String

/-- Embedding of `WebhookManager.send_log_data`. The injected sender is
represented by the results its two methods would return (`rawRes`,
`jsonRes`). Returns the `results` list, the trace of channels on which a
network send was actually performed, and whether the observers were
notified. -/
def send_log_data (endpoint : Option String) (mode : String) (log : LogData)
    (rawRes jsonRes : Bool × Option Nat × Option String) :
    List Outcome × List String × Bool :=
  if !endpointTruthy endpoint then
    ([("error", false, none, some "No endpoint configured")], [], false)
  else
    let r1 : List Outcome :=
      if mode = "raw" ∨ mode = "both" then [("raw", rawRes)] else []
    let s1 : List String :=
      if mode = "raw" ∨ mode = "both" then ["raw"] else []
    let r2 : List Outcome :=
      if (mode = "json" ∨ mode = "both") ∧ optTruthy log.parsed_json then
        [("json", jsonRes)]
      else []
    let s2 : List String :=
      if (mode = "json" ∨ mode = "both") ∧ optTruthy log.parsed_json then
        ["json"]
      else []
    (r1 ++ r2, s1 ++ s2, true)

/-! ## Claim C3: the delivery retry policy -/

/-- The retry loop makes at most as many attempts as remain. -/
theorem sendLoop_attempts_le (resp : Nat → Attempt) :
    ∀ (rem a : Nat) (le : Option String), (sendLoop resp a rem le).attempts ≤ rem := by
  intro rem
  induction rem with
  | zero => intro a le; simp [sendLoop]
  | succ n ih =>
    intro a le
    simp only [sendLoop]
    by_cases h : attemptOk (resp a)
    · simp [h]
    · by_cases h0 : n = 0
      · simp [h, h0]
      · have hrec := ih (a + 1) (some (attemptErr (resp a)))
        simp [h, h0]
        omega

/-- Characterization of the retry loop when the first success happens after
`j` failures: the loop stops at attempt `j` with a successful result and
the backoff waits `2 ^ a, ..., 2 ^ (a + j - 1)` slept so far. -/
theorem sendLoop_success (resp : Nat → Attempt) :
    ∀ (j rem a : Nat) (le : Option String), j < rem →
      attemptOk (resp (a + j)) = true →
      (∀ i, i < j → attemptOk (resp (a + i)) = false) →
      sendLoop resp a rem le =
        ⟨true, attemptStatus (resp (a + j)), none, j + 1,
          (List.range j).map (fun i => 2 ^ (a + i))⟩ := by
  intro j
  induction j with
  | zero =>
    intro rem a le hlt hok _
    cases rem with
    | zero => omega
    | succ m =>
      rw [Nat.add_zero] at hok
      simp [sendLoop, hok]
  | succ n ih =>
    intro rem a le hlt hok hfail
    cases rem with
    | zero => omega
    | succ m =>
      have h0 : attemptOk (resp a) = false := by
        simpa using hfail 0 (Nat.succ_pos n)
      have hm : m ≠ 0 := by omega
      have hok2 : attemptOk (resp (a + 1 + n)) = true := by
        have : a + 1 + n = a + (n + 1) := by omega
        rw [this]; exact hok
      have hfail2 : ∀ i, i < n → attemptOk (resp (a + 1 + i)) = false := by
        intro i hi
        have : a + 1 + i = a + (i + 1) := by omega
        rw [this]; exact hfail (i + 1) (by omega)
      have ihh := ih m (a + 1) (some (attemptErr (resp a))) (by omega) hok2 hfail2
      simp only [sendLoop, h0, Bool.false_eq_true, if_false, hm, if_neg, ihh]
      have harg : a + 1 + n = a + (n + 1) := by omega
      have hlist : (List.range (n + 1)).map (fun i => 2 ^ (a + i)) =
          2 ^ a :: (List.range n).map (fun i => 2 ^ (a + 1 + i)) := by
        rw [List.range_succ_eq_map, List.map_cons, List.map_map]
        refine congrArg₂ _ (by rw [Nat.add_zero]) ?_
        refine List.map_congr_left ?_
        intro i _
        simp only [Function.comp]
        congr 1
        omega
      simp [harg, hlist]

/-- Characterization of the retry loop when every remaining attempt fails:
the loop makes all the attempts, returns a failed result carrying the last
error, and sleeps between attempts (not after the final one). -/
theorem sendLoop_allfail (resp : Nat → Attempt) :
    ∀ (rem a : Nat) (le : Option String), 0 < rem →
      (∀ i, i < rem → attemptOk (resp (a + i)) = false) →
      sendLoop resp a rem le =
        ⟨false, none, some (attemptErr (resp (a + (rem - 1)))), rem,
          (List.range (rem - 1)).map (fun i => 2 ^ (a + i))⟩ := by
  intro rem
  induction rem with
  | zero => intro a le h; omega
  | succ m ih =>
    intro a le _ hfail
    have h0 : attemptOk (resp a) = false := by
      simpa using hfail 0 (by omega)
    by_cases hm : m = 0
    · subst hm
      simp [sendLoop, h0]
    · have hpos : 0 < m := by omega
      have hfail2 : ∀ i, i < m → attemptOk (resp (a + 1 + i)) = false := by
        intro i hi
        have : a + 1 + i = a + (i + 1) := by omega
        rw [this]; exact hfail (i + 1) (by omega)
      have ihh := ih (a + 1) (some (attemptErr (resp a))) hpos hfail2
      simp only [sendLoop, h0, Bool.false_eq_true, if_false, hm, if_neg, ihh]
      have harg : a + 1 + (m - 1) = a + m := by omega
      have hlist : (List.range m).map (fun i => 2 ^ (a + i)) =
          2 ^ a :: (List.range (m - 1)).map (fun i => 2 ^ (a + 1 + i)) := by
        have hr : m = (m - 1) + 1 := by omega
        rw [hr, List.range_succ_eq_map, List.map_cons, List.map_map]
        refine congrArg₂ _ (by rw [Nat.add_zero]) ?_
        refine List.map_congr_left ?_
        intro i _
        simp only [Function.comp]
        congr 1
        omega
      simp [harg, hlist]

/-- Claim C3: `_send_request` makes at most the configured number of
attempts (default 3); the first attempt whose response status is below 400
stops the loop immediately with a single successful result and no error,
with exponentially doubling backoff (1s, 2s, 4s, ...) slept between the
attempts made; and when every attempt fails (status at least 400 or a
connection/timeout error), exactly one failed result is returned, carrying
the error of the last attempt. -/
theorem send_request_retry_policy (resp : Nat → Attempt) (retry : Nat) :
    retry_count_default = 3 ∧
    (send_request resp retry).attempts ≤ retry ∧
    (∀ j, j < retry → attemptOk (resp j) = true →
      (∀ i, i < j → attemptOk (resp i) = false) →
      send_request resp retry =
        ⟨true, attemptStatus (resp j), none, j + 1,
          (List.range j).map (fun i => 2 ^ i)⟩) ∧
    ((∀ i, i < retry → attemptOk (resp i) = false) → 0 < retry →
      send_request resp retry =
        ⟨false, none, some (attemptErr (resp (retry - 1))), retry,
          (List.range (retry - 1)).map (fun i => 2 ^ i)⟩) := by
  refine ⟨rfl, sendLoop_attempts_le resp retry 0 none, ?_, ?_⟩
  · intro j hj hok hfail
    have h := sendLoop_success resp j retry 0 none hj (by simpa using hok)
      (by intro i hi; simpa using hfail i hi)
    simpa [send_request] using h
  · intro hfail hpos
    have h := sendLoop_allfail resp retry 0 none hpos
      (by intro i hi; simpa using hfail i hi)
    simpa [send_request] using h

/-- A destination that fails the first two attempts and succeeds on the
third. -/
def respFailTwice : Nat → Attempt := fun i =>
  if i < 2 then .connErr "refused" else .resp 200 "OK"

/-- Witness for `send_request_retry_policy`: with the default three
attempts, a destination failing twice then succeeding yields one
successful result after three attempts, with backoff waits of 1s and 2s. -/
theorem send_request_retry_policy_witness :
    send_request respFailTwice retry_count_default =
      ⟨true, some 200, none, 3, [1, 2]⟩ := by
  have h := (send_request_retry_policy respFailTwice retry_count_default).2.2.1 2
    (by decide) (by decide)
    (by intro i hi; interval_cases i <;> decide)
  rw [h]
  decide

/-! ## Claim C5: delivery-mode validity -/

/-- A settings document carrying an invalid mode. -/
def docBogusMode : Doc := fun k =>
  if k = "endpoint" then some "http://x"
  else if k = "mode" then some "bogus" else none

/-- Claim C5, counterexample: `WebhookManager.configure` performs no mode
validation, so after `configure(endpoint, "bogus")` the stored mode is
`"bogus"`, which is not one of the enumerated values. -/
theorem mode_validity_counterexample :
    (wm_configure wm_init "http://x" "bogus").mode = "bogus" ∧
    "bogus" ∉ valid_modes := by
  decide

/-- Claim C5 (amended): the mode reaching storage through `save` is always
one of the enumerated values, any invalid mode being coerced to `"raw"`
(so `save({mode: "bogus"})` followed by `load()` yields `"raw"`); but
`configure()` stores its mode argument verbatim without validation, so the
always-valid invariant does not extend to the mode held by
`WebhookManager`. -/
theorem mode_validity (env : String → Option String) (s : Doc) (w : WMState)
    (e m : String) :
    (∃ v, composite_load_settings env (json_save_settings s) "mode" = some v ∧
      v ∈ valid_modes) ∧
    (dGetD s "mode" "raw" ∉ valid_modes →
      composite_load_settings env (json_save_settings s) "mode" = some "raw") ∧
    (wm_configure w e m).mode = m := by
  by_cases hc : dGetD s "mode" "raw" ∈ valid_modes
  · have hMne : dGetD s "mode" "raw" ≠ "" := by
      intro h
      rw [h] at hc
      simp [valid_modes] at hc
    have hval : validate_settings s "mode" = some (dGetD s "mode" "raw") := by
      simp [validate_settings, hc]
    have hcomp : composite_load_settings env (json_save_settings s) "mode" =
        some (dGetD s "mode" "raw") := by
      simp only [composite_load_settings, dictUpdateTruthy, json_load_settings,
        json_save_settings, dictUpdate]
      rw [hval]
      simp [hMne]
    exact ⟨⟨dGetD s "mode" "raw", hcomp, hc⟩,
      fun h => absurd hc h, rfl⟩
  · have hval : validate_settings s "mode" = some "raw" := by
      simp [validate_settings, hc]
    have hcomp : composite_load_settings env (json_save_settings s) "mode" =
        some "raw" := by
      simp only [composite_load_settings, dictUpdateTruthy, json_load_settings,
        json_save_settings, dictUpdate]
      rw [hval]
      simp
    exact ⟨⟨"raw", hcomp, by decide⟩, fun _ => hcomp, rfl⟩

/-- Witness for `mode_validity`: saving a document with mode `"bogus"` and
loading yields `"raw"`, while `configure` with a valid mode stores it. -/
theorem mode_validity_witness :
    composite_load_settings envEmpty (json_save_settings docBogusMode) "mode" = some "raw" ∧
    (wm_configure wm_init "u" "both").mode = "both" := by
  have h := mode_validity envEmpty docBogusMode wm_init "u" "both"
  exact ⟨h.2.1 (by decide), h.2.2⟩

/-! ## Claims C6 and C10: `send_log_data` channel selection -/

/-- A captured event whose payload failed structured parsing. -/
def logUnparsed : LogData :=
  ⟨"t", "single_event", "hello", "Single Event: hello", none⟩

/-- Claim C6: in mode `"both"`, an event whose payload did not parse as
structured data is sent on the raw channel only: exactly one outcome is
produced (for the raw channel), no send happens on the structured channel
and no failure is recorded for it, and the observers are notified of the
single outcome. -/
theorem mode_both_unparsed (e : String) (log : LogData)
    (rawRes jsonRes : Bool × Option Nat × Option String)
    (he : e ≠ "") (hp : log.parsed_json = none) :
    send_log_data (some e) "both" log rawRes jsonRes =
      ([("raw", rawRes)], ["raw"], true) := by
  simp [send_log_data, endpointTruthy, he, hp, optTruthy]

/-- Witness for `mode_both_unparsed` at a concrete endpoint, event and
sender results. -/
theorem mode_both_unparsed_witness :
    send_log_data (some "http://x") "both" logUnparsed
      (true, some 200, none) (false, none, some "e") =
      ([("raw", true, some 200, none)], ["raw"], true) :=
  mode_both_unparsed "http://x" logUnparsed (true, some 200, none)
    (false, none, some "e") (by decide) rfl

/-- Claim C10: with no endpoint configured (unset or empty),
`send_log_data` returns exactly the single entry
`("error", False, None, "No endpoint configured")`, performs no network
send on any channel, and does not notify any observer. -/
theorem no_endpoint_skips (endpoint : Option String) (mode : String)
    (log : LogData) (rawRes jsonRes : Bool × Option Nat × Option String)
    (h : endpoint = none ∨ endpoint = some "") :
    send_log_data endpoint mode log rawRes jsonRes =
      ([("error", false, none, some "No endpoint configured")], [], false) := by
  rcases h with rfl | rfl <;> simp [send_log_data, endpointTruthy]

/-- Witness for `no_endpoint_skips` at a concrete event and mode. -/
theorem no_endpoint_skips_witness :
    send_log_data none "both" logUnparsed (true, some 200, none)
      (true, some 200, none) =
      ([("error", false, none, some "No endpoint configured")], [], false) :=
  no_endpoint_skips none "both" logUnparsed (true, some 200, none)
    (true, some 200, none) (Or.inl rfl)

/-! ## Event extractor (`AndroidLogProcessor` in `src/log_capturer.py`)

Each rule is the regex `KEYWORD\s*(.+)` applied with `re.search`. For a
single log line (no interior newline), the pattern matches exactly when the
keyword occurs with at least one character after its first occurrence, and
`match.group(1).strip()` equals the stripped suffix after that first
occurrence: the greedy `\s*` absorbs leading whitespace (backtracking just
enough for `(.+)` to take at least one character), and the subsequent
`.strip()` removes whatever whitespace remains at either end. -/

/-- Whether `kw` is a prefix of `l`. -/
def startsWithL : List Char → List Char → Bool
  | [], _ => true
  | _ :: _, [] => false
  | a :: as, b :: bs => a == b && startsWithL as bs

/-- The suffix of `l` after the first occurrence of `kw`, if any. -/
def afterFirst (kw : List Char) : List Char → Option (List Char)
  | [] => none
  | c :: cs =>
    if startsWithL kw (c :: cs) then some ((c :: cs).drop kw.length)
    else afterFirst kw cs

/-- Embedding of one extraction rule: `re.search(KEYWORD + r"\s*(.+)", line)`
followed by `match.group(1).strip()` when the search succeeds. -/
def matchKw (kw line : String) : Option String :=
  match afterFirst kw.data line.data with
  | none => none
  | some rest => if rest.isEmpty then none else some (String.mk (stripL rest))

/-- The ordered rule list `_patterns` of `AndroidLogProcessor`, keyword and
label. -/
def patterns : List (String × String) :=
  [("Event Payload:", "event_payload"), ("Single Event:", "single_event")]

/-- The rule loop of `process_line`: try the rules in order, first match
wins. -/
def firstMatch : List (String × String) → String → Option (String × String)
  | [], _ => none
  | (kw, label) :: rest, l =>
    match matchKw kw l with
    | some p => some (label, p)
    | none => firstMatch rest l

/-- Embedding of `AndroidLogProcessor._try_parse_json`. The `json.loads`
library call is the parameter `loads`; `loads` failing is `none`. A payload
parsing to JSON null gives Python `None`, indistinguishable from a parse
failure in the returned optional. -/
def try_parse_json (loads : String → Option JVal) (text : String) : Option JVal :=
  match loads text with
  | some .null => none
  | r => r

/-- Embedding of `AndroidLogProcessor.process_line`: strip the line, drop it
if empty, try the rules in order and build the event record from the first
match. `now` stands for the formatted `datetime.now()` timestamp. -/
def process_line (loads : String → Option JVal) (now : String) (line : String) :
    Option LogData :=
  let l := pyStrip line
  if l = "" then none
  else
    match firstMatch patterns l with
    | some (label, p) => some ⟨now, label, p, l, try_parse_json loads p⟩
    | none => none

/-! ## Claim C2: extraction order and payload parsing -/

/-- Claim C2, counterexample: a payload of `"null"` parses as JSON, yet
`payload_structured` is absent (because `json.loads("null")` is Python
`None`); and a payload of `"5"` is not a structured key-value document, yet
`payload_structured` is present and carries the number 5. Under either
reading of "parses as a structured (JSON) document", the claimed
equivalence fails on one of these lines. -/
theorem extract_parse_counterexample :
    jsonLoadsLite "null" = some JVal.null ∧
    process_line jsonLoadsLite "t" "Single Event: null" =
      some ⟨"t", "single_event", "null", "Single Event: null", none⟩ ∧
    jsonLoadsLite "5" = some (JVal.num 5) ∧
    process_line jsonLoadsLite "t" "Single Event: 5" =
      some ⟨"t", "single_event", "5", "Single Event: 5", some (JVal.num 5)⟩ := by
  decide

/-- Claim C2 (amended): rules are tried in their configured priority order
and the first rule whose pattern matches wins, its label becoming
`event_type` and its stripped capture group `matched_text`; a line matching
both rules always yields the first label. `parsed_json` equals the parsed
value whenever the payload parses as any JSON value other than null, and it
is absent when parsing fails or yields JSON null — neither is an error. -/
theorem process_line_first_match (loads : String → Option JVal) (now line : String) :
    (∀ p, matchKw "Event Payload:" (pyStrip line) = some p →
      process_line loads now line =
        some ⟨now, "event_payload", p, pyStrip line, try_parse_json loads p⟩) ∧
    (matchKw "Event Payload:" (pyStrip line) = none →
      ∀ p, matchKw "Single Event:" (pyStrip line) = some p →
      process_line loads now line =
        some ⟨now, "single_event", p, pyStrip line, try_parse_json loads p⟩) ∧
    (∀ p v, loads p = some v → v ≠ JVal.null → try_parse_json loads p = some v) ∧
    (∀ p, loads p = none → try_parse_json loads p = none) ∧
    (∀ p, loads p = some JVal.null → try_parse_json loads p = none) := by
  refine ⟨?_, ?_, ?_, ?_, ?_⟩
  · intro p h
    have hl : pyStrip line ≠ "" := by
      intro h0
      rw [h0] at h
      rw [(by decide : matchKw "Event Payload:" "" = none)] at h
      cases h
    simp only [process_line]
    rw [if_neg hl]
    simp [patterns, firstMatch, h]
  · intro h1 p h2
    have hl : pyStrip line ≠ "" := by
      intro h0
      rw [h0] at h2
      rw [(by decide : matchKw "Single Event:" "" = none)] at h2
      cases h2
    simp only [process_line]
    rw [if_neg hl]
    simp [patterns, firstMatch, h1, h2]
  · intro p v hv hnn
    cases v <;> simp_all [try_parse_json]
  · intro p h
    simp [try_parse_json, h]
  · intro p h
    simp [try_parse_json, h]

/-- Witness for `process_line_first_match`: a line matching both rules
yields the first rule's label, with the second rule's keyword sitting
inside the captured payload. -/
theorem process_line_first_match_witness :
    process_line jsonLoadsLite "t" "Event Payload: Single Event: hi" =
      some ⟨"t", "event_payload", "Single Event: hi",
        "Event Payload: Single Event: hi", none⟩ ∧
    matchKw "Single Event:" (pyStrip "Event Payload: Single Event: hi") =
      some "hi" := by
  have h := (process_line_first_match jsonLoadsLite "t"
    "Event Payload: Single Event: hi").1 "Single Event: hi" (by decide)
  constructor
  · rw [h]
    decide
  · decide

/-! ## Capture lifecycle (`LogCaptureManager` in `src/log_capturer.py`) -/

/-- The part of an `ADBLogCapturer` the manager observes: its `_capturing`
flag. -/
structure Capturer where
  capturing : Bool
deriving DecidableEq, Repr

/-- Embedding of `ADBLogCapturer.start_capture`: a no-op returning `False`
when already capturing; otherwise the subprocess launch either succeeds
(`ok = true`, capturing becomes true) or raises, leaving the capturer not
capturing and returning `False`. -/
def adb_start_capture (c : Capturer) (ok : Bool) : Capturer × Bool :=
  if c.capturing then (c, false)
  else if ok then (⟨true⟩, true) else (c, false)

/-- Embedding of `ADBLogCapturer.stop_capture`: returns `False` without
effect when not capturing, otherwise clears the flag and returns `True`. -/
def adb_stop_capture (c : Capturer) : Capturer × Bool :=
  if c.capturing then (⟨false⟩, true) else (c, false)

/-- The state of `LogCaptureManager`: its `_current_capturer` reference. -/
structure CMgr where
  current : Option Capturer
deriving DecidableEq, Repr

/-- Embedding of `LogCaptureManager.start_adb_capture`: rejected when the
current capturer is capturing; otherwise a fresh capturer is installed and
started (`ok` tells whether the underlying `adb logcat` launch succeeds). -/
def start_adb_capture (m : CMgr) (ok : Bool) : CMgr × Bool :=
  match m.current with
  | some c =>
    if c.capturing then (m, false)
    else
      let r := adb_start_capture ⟨false⟩ ok
      (⟨some r.1⟩, r.2)
  | none =>
    let r := adb_start_capture ⟨false⟩ ok
    (⟨some r.1⟩, r.2)

/-- Embedding of `LogCaptureManager.stop_capture`: with a current capturer,
stop it, clear the reference, and return the capturer's result; with none,
return `False` unchanged. -/
def stop_capture (m : CMgr) : CMgr × Bool :=
  match m.current with
  | some c => (⟨none⟩, (adb_stop_capture c).2)
  | none => (m, false)

/-- Embedding of `LogCaptureManager.is_capturing`. -/
def is_capturing (m : CMgr) : Bool :=
  match m.current with
  | some c => c.capturing
  | none => false

/-- One external operation on the capture manager. -/
inductive COp where
  | cstart (ok : Bool) : COp
  | cstop : COp

/-- The state transition performed by one operation. -/
def capStep (m : CMgr) : COp → CMgr
  | .cstart ok => (start_adb_capture m ok).1
  | .cstop => (stop_capture m).1

/-- Run a sequence of start/stop operations from the freshly constructed
manager. -/
def runOps (ops : List COp) : CMgr :=
  ops.foldl capStep ⟨none⟩

/-- The number of active capture sessions held by the manager. -/
def activeCount (m : CMgr) : Nat :=
  if is_capturing m then 1 else 0

/-! ## Claim C4: the capture session state machine -/

/-- The manager state after a `start` whose subprocess launch failed: a
stale, non-capturing capturer remains installed. -/
def mgrFailedStart : CMgr := (start_adb_capture ⟨none⟩ false).1

/-- Claim C4, counterexample: after a failed start, no session is
capturing, and `stop()` duly reports failure — but it is not effect-free:
it clears the stale capturer reference, changing the manager state. -/
theorem capture_stop_counterexample :
    is_capturing mgrFailedStart = false ∧
    (stop_capture mgrFailedStart).2 = false ∧
    (stop_capture mgrFailedStart).1 ≠ mgrFailedStart := by
  decide

/-- Claim C4 (amended): while a session is capturing, a second `start()` is
rejected and leaves the state — hence its single active session —
unchanged; `stop()` with no capturer present is a strict no-op reporting
failure; `stop()` when no session is capturing reports failure and leaves
capture inactive (clearing a stale non-capturing capturer if one remains
from a failed start); and across every sequence of start/stop operations at
most one capture session is active. -/
theorem capture_state_machine (m : CMgr) (ok : Bool) (ops : List COp) :
    (is_capturing m = true → start_adb_capture m ok = (m, false)) ∧
    stop_capture ⟨none⟩ = (⟨none⟩, false) ∧
    (is_capturing m = false → (stop_capture m).2 = false ∧
      is_capturing (stop_capture m).1 = false) ∧
    activeCount (runOps ops) ≤ 1 := by
  refine ⟨?_, rfl, ?_, ?_⟩
  · obtain ⟨cur⟩ := m
    cases cur with
    | none => intro h; simp [is_capturing] at h
    | some c =>
      intro h
      simp only [is_capturing] at h
      simp [start_adb_capture, h]
  · obtain ⟨cur⟩ := m
    cases cur with
    | none => intro _; exact ⟨rfl, rfl⟩
    | some c =>
      intro h
      simp only [is_capturing] at h
      simp [stop_capture, adb_stop_capture, is_capturing, h]
  · have hb : ∀ mm : CMgr, activeCount mm ≤ 1 := by
      intro mm
      unfold activeCount
      split <;> omega
    exact hb _

/-- Witness for `capture_state_machine`: a successful start followed by a
second start is rejected with the state unchanged, and stopping an idle
manager fails with no effect; a start-start-stop run ends with at most one
active session. -/
theorem capture_state_machine_witness :
    start_adb_capture ⟨some ⟨true⟩⟩ true = (⟨some ⟨true⟩⟩, false) ∧
    (stop_capture ⟨none⟩).2 = false ∧
    activeCount (runOps [COp.cstart true, COp.cstart true, COp.cstop]) ≤ 1 := by
  have h := capture_state_machine ⟨some ⟨true⟩⟩ true
    [COp.cstart true, COp.cstart true, COp.cstop]
  refine ⟨h.1 rfl, ?_, h.2.2.2⟩
  rw [h.2.1]

/-! ## Device monitor (`DeviceMonitor` in `src/device_manager.py`) -/

/-- One device-status snapshot, as built by
`ADBDeviceManager.get_device_info` (the fields `_has_status_changed`
inspects). The fallback path for non-ADB managers omits `device_count`,
hence the optional field. -/
structure DStatus where
  connected : Bool
  device_count : Option Nat
  devices : List String
deriving DecidableEq, Repr

/-- Embedding of `ADBDeviceManager.get_device_info` from a device list. -/
def get_device_info (devices : List String) : DStatus :=
  ⟨decide (0 < devices.length), some devices.length, devices⟩

/-- Embedding of `DeviceMonitor._has_status_changed`: the first snapshot
always counts as changed; afterwards only the `connected` flag, the
`device_count` field, and the LENGTH of the device list are compared. -/
def has_status_changed (last : Option DStatus) (n : DStatus) : Bool :=
  match last with
  | none => true
  | some l =>
    (l.connected != n.connected) || (l.device_count != n.device_count) ||
      (l.devices.length != n.devices.length)

/-- One iteration of `DeviceMonitor._monitor_loop` around a fresh poll
result: notify (and record the snapshot) exactly when the status changed. -/
def monitor_step (last : Option DStatus) (cur : DStatus) : Option DStatus × Bool :=
  if has_status_changed last cur then (some cur, true) else (last, false)

/-! ## Claim C8: device status change detection -/

/-- Claim C8, counterexample: two snapshots with the same device count but
different device identifiers are NOT reported as a change — membership is
never compared by `_has_status_changed`. -/
theorem device_change_counterexample :
    (get_device_info ["a"]).devices ≠ (get_device_info ["b"]).devices ∧
    (monitor_step (some (get_device_info ["a"])) (get_device_info ["b"])).2 = false := by
  decide

/-- Claim C8 (amended): a change notification is emitted iff there is no
previous snapshot or the new snapshot differs from the last in the
connected flag, in the `device_count` field, or in the length of the device
list; membership of the device-identifier set is not compared. On a
notification the snapshot is recorded; otherwise the last snapshot is
kept. -/
theorem device_change_detection (last : Option DStatus) (cur : DStatus) :
    ((monitor_step last cur).2 = true ↔
      (last = none ∨ ∃ l, last = some l ∧
        (l.connected ≠ cur.connected ∨ l.device_count ≠ cur.device_count ∨
          l.devices.length ≠ cur.devices.length))) ∧
    (∀ devs : List String, (get_device_info devs).device_count =
      some devs.length) ∧
    ((monitor_step last cur).2 = true → (monitor_step last cur).1 = some cur) ∧
    ((monitor_step last cur).2 = false → (monitor_step last cur).1 = last) := by
  refine ⟨?_, fun _ => rfl, ?_, ?_⟩
  · cases last with
    | none => simp [monitor_step, has_status_changed]
    | some l =>
      simp only [monitor_step]
      by_cases h : has_status_changed (some l) cur
      · simp only [if_pos h]
        simp only [has_status_changed, Bool.or_eq_true, bne_iff_ne] at h
        simp only [true_iff]
        exact Or.inr ⟨l, rfl, by tauto⟩
      · simp only [if_neg h]
        simp only [has_status_changed, Bool.or_eq_true, bne_iff_ne] at h
        push_neg at h
        constructor
        · intro hh
          exact absurd hh (by decide)
        · rintro (hc | ⟨l2, hl2, hd⟩)
          · cases hc
          · injection hl2 with hl2
            subst hl2
            simp_all
  · intro h
    unfold monitor_step at h ⊢
    split at h
    next hc => rw [if_pos hc]
    next hc => simp at h
  · intro h
    unfold monitor_step at h ⊢
    split at h
    next hc => simp at h
    next hc => rw [if_neg hc]

/-- Witness for `device_change_detection`: going from no devices to one
device is reported and recorded. -/
theorem device_change_detection_witness :
    (monitor_step (some (get_device_info [])) (get_device_info ["a"])).2 = true ∧
    (monitor_step (some (get_device_info [])) (get_device_info ["a"])).1 =
      some (get_device_info ["a"]) := by
  have h := device_change_detection (some (get_device_info [])) (get_device_info ["a"])
  have ht := h.1.mpr (Or.inr ⟨get_device_info [], rfl, by decide⟩)
  exact ⟨ht, h.2.2.1 ht⟩

/-! ## Notification fan-out

The four `_notify_observers` methods (`ADBLogCapturer`, `WebhookManager`,
`DeviceMonitor`, `JSONSettingsManager`) are textually identical loops:
`for observer in self._observers: try: observer.callback(payload) except
Exception as e: print(...)`. They are embedded once. -/

deriving instance DecidableEq for Except

/-- A subscribed observer: an identifier and the behaviour of its callback
when invoked on the payload at hand (normal return or raised exception). -/
structure Subscriber where
  oid : Nat
  callbackResult : Except String Unit
deriving DecidableEq, Repr

/-- Whether the subscriber's callback returns normally. -/
def subOk (o : Subscriber) : Bool :=
  match o.callbackResult with
  | .ok _ => true
  | .error _ => false

/-- The exception message of a failing subscriber. -/
def subErr (o : Subscriber) : String :=
  match o.callbackResult with
  | .ok _ => ""
  | .error m => m

/-- Embedding of the `_notify_observers` loop: visit every observer in
order; a normal return delivers the notification, a raised exception is
caught and recorded (printed) without interrupting the loop or escaping
it. Returns the identifiers notified and the caught errors. -/
def notify_observers : List Subscriber → List Nat × List (Nat × String)
  | [] => ([], [])
  | o :: rest =>
    let r := notify_observers rest
    match o.callbackResult with
    | .ok _ => (o.oid :: r.1, r.2)
    | .error msg => (r.1, (o.oid, msg) :: r.2)

/-- Embedding of a whole notification round at the owning manager: the
subscriber list (`self._observers`) is read but never modified by the
loop. -/
def notify_step (obs : List Subscriber) :
    List Subscriber × List Nat × List (Nat × String) :=
  (obs, notify_observers obs)

/-! ## Claim C9: fan-out isolation -/

/-- Claim C9: in a notification round, every observer whose callback
returns normally is notified, in subscription order, regardless of
exceptions raised by other observers; every exception is caught into the
error log instead of propagating out of the loop; and the subscriber list
is left unchanged, so a failing observer is never removed automatically.
This covers all four fan-out points, which share this loop verbatim. -/
theorem notify_isolation (obs : List Subscriber) :
    (notify_observers obs).1 = (obs.filter subOk).map Subscriber.oid ∧
    (notify_observers obs).2 = (obs.filter (fun o => !subOk o)).map
      (fun o => (o.oid, subErr o)) ∧
    (notify_step obs).1 = obs := by
  refine ⟨?_, ?_, rfl⟩
  · induction obs with
    | nil => rfl
    | cons o rest ih =>
      cases hc : o.callbackResult <;>
        simp_all [notify_observers, subOk, List.filter]
  · induction obs with
    | nil => rfl
    | cons o rest ih =>
      cases hc : o.callbackResult <;>
        simp_all [notify_observers, subOk, subErr, List.filter]

end LogCap
